import Mathlib

/-!
Shallow embedding of the girschworks_cms API core: the multi-tenant
content-management route handlers (pages, media, sites, auth) of the
Express/Prisma backend, modelled as pure functions over an explicit
database state.  Persistence (`db.page.findFirst`, `db.page.updateMany`,
`db.page.create`, ...) is modelled over lists; the handlers mirror the
source control flow step by step.  Opaque pass-through fields of the
source records (JSON `content`, `excerpt`, SEO metadata, timestamps
`createdAt`/`updatedAt`) play no role in any claim and are omitted from
the record types; every field consulted by a handler's logic is kept.
Apostrophe contractions inside source message strings are rendered with
"do not" instead of the contracted form.
-/

/-- Page.status enum of the Prisma schema: DRAFT, PUBLISHED, ARCHIVED. -/
inductive PageStatus
  | DRAFT
  | PUBLISHED
  | ARCHIVED
deriving DecidableEq, Repr

/-- The authenticated caller placed on `req.user` by `AuthMiddleware.authenticate`:
`{ id, email, role, tenantId }`.  Roles are strings in the source
("SUPER_ADMIN", "ADMIN", "EDITOR", "VIEWER"). -/
structure Identity where
  id : String
  email : String
  role : String
  tenantId : String
deriving DecidableEq, Repr

/-- Site row: id, owning tenantId, name, optional globally unique domain,
theme, isPublished flag. -/
structure Site where
  id : String
  tenantId : String
  name : String
  domain : Option String
  theme : String
  isPublished : Bool
deriving DecidableEq, Repr

/-- Page row: id, owning siteId, title, slug (unique per site), status,
isHomePage flag, authorId, publishedAt timestamp (modelled as `Option Nat`,
`none` = SQL NULL). -/
structure Page where
  id : String
  siteId : String
  title : String
  slug : String
  status : PageStatus
  isHomePage : Bool
  authorId : String
  publishedAt : Option Nat
deriving DecidableEq, Repr

/-- Media row: id, owning siteId, filename (unique per site), originalName,
mimeType, size, url, optional alt text.  Note: the schema has no
author/creator column on Media. -/
structure Media where
  id : String
  siteId : String
  filename : String
  originalName : String
  mimeType : String
  size : Nat
  url : String
  alt : Option String
deriving DecidableEq, Repr

/-- User row as consulted by auth middleware and login. -/
structure UserRec where
  id : String
  email : String
  password : String
  firstName : String
  lastName : String
  role : String
  tenantId : String
  isActive : Bool
deriving DecidableEq, Repr

/-- The persisted state the route handlers read and write. -/
structure DB where
  sites : List Site
  pages : List Page
  media : List Media
deriving DecidableEq, Repr

/-- An HTTP error response as produced by a handler:
`res.status(status).json({ error, message })`. -/
structure ErrResponse where
  status : Nat
  error : String
  message : String
deriving DecidableEq, Repr

/-- Handler outcome: the JSON success payload or an error response. -/
inductive Outcome (α : Type)
  | ok (a : α)
  | err (e : ErrResponse)
deriving DecidableEq, Repr

/-! ## Error response constants (verbatim from the route handlers) -/

/-- 400 response produced when a Zod schema `.parse` throws
(`{ error: "Validation error", details: error.errors }`); the dynamic
`details` array is not modelled. -/
def validationErr : ErrResponse :=
  ⟨400, "Validation error", ""⟩

/-- 404 from the pages routes when the tenant-scoped lookup finds nothing. -/
def pageNotFound : ErrResponse :=
  ⟨404, "Page not found", "The requested page does not exist or you do not have access to it"⟩

/-- 404 from POST /pages when the target site is not in the caller tenant. -/
def siteNotFoundForCreate : ErrResponse :=
  ⟨404, "Site not found", "The specified site does not exist or you do not have access to it"⟩

/-- 400 from the pages routes when the slug is already taken in the site. -/
def slugExistsErr : ErrResponse :=
  ⟨400, "Slug already exists", "A page with this slug already exists in this site"⟩

/-- 403 from PUT /pages/:id for an editor touching a page they did not author. -/
def notOwnerEdit : ErrResponse :=
  ⟨403, "Insufficient permissions", "You can only edit your own pages"⟩

/-- 403 from PATCH /pages/:id/publish for an editor on a foreign page. -/
def notOwnerModify : ErrResponse :=
  ⟨403, "Insufficient permissions", "You can only modify your own pages"⟩

/-- 403 from DELETE /pages/:id for an editor on a foreign page. -/
def notOwnerDelete : ErrResponse :=
  ⟨403, "Insufficient permissions", "You can only delete your own pages"⟩

/-- 404 from the media routes when the tenant-scoped lookup finds nothing. -/
def mediaNotFound : ErrResponse :=
  ⟨404, "Media not found", "The requested media file does not exist or you do not have access to it"⟩

/-- 400 from the media routes when the filename is already taken in the site. -/
def filenameExistsErr : ErrResponse :=
  ⟨400, "Filename already exists", "A media file with this filename already exists in this site"⟩

/-- 404 from the sites routes when the tenant-scoped lookup finds nothing. -/
def siteNotFound : ErrResponse :=
  ⟨404, "Site not found", "The requested site does not exist or you do not have access to it"⟩

/-- 400 from the sites routes when the domain is already taken globally. -/
def domainTakenErr : ErrResponse :=
  ⟨400, "Domain already taken", "A site with this domain already exists"⟩

/-- 403 produced by `AuthMiddleware.requireRole` when the caller role is not
in the route's allowed list. -/
def roleErr (roles : List String) (r : String) : ErrResponse :=
  ⟨403, "Insufficient permissions",
    "Required role: " ++ String.intercalate " or " roles ++ ", your role: " ++ r⟩

/-! ## Validation (Zod schemas) -/

/-- The slug regex of CreatePageSchema: `^[a-z0-9-]+$`. -/
def slugCharOk (c : Char) : Bool :=
  (decide ('a' ≤ c) && decide (c ≤ 'z')) || (decide ('0' ≤ c) && decide (c ≤ '9')) || c == '-'

/-- `z.string().min(1).regex(/^[a-z0-9-]+$/)`: nonempty, only lowercase
letters, digits, hyphens. -/
def slugValid (s : String) : Bool :=
  decide (0 < s.length) && s.toList.all slugCharOk

/-- CreatePageSchema input after JSON parsing: siteId, title, slug required;
status/isHomePage optional (opaque content/excerpt/SEO fields omitted). -/
structure CreatePageInput where
  siteId : String
  title : String
  slug : String
  status : Option PageStatus
  isHomePage : Option Bool
deriving DecidableEq, Repr

/-- CreatePageSchema `.parse` succeeds: `siteId.min(1)`, `title.min(1)`,
slug nonempty and matching the regex (`status` is already enum-typed). -/
def createInputValid (i : CreatePageInput) : Bool :=
  decide (0 < i.siteId.length) && decide (0 < i.title.length) && slugValid i.slug

/-- UpdatePageSchema = CreatePageSchema.partial().omit(siteId): every field
optional, validated only when present. -/
structure UpdatePageInput where
  title : Option String
  slug : Option String
  status : Option PageStatus
  isHomePage : Option Bool
deriving DecidableEq, Repr

/-- UpdatePageSchema `.parse` succeeds: present fields must satisfy their
schemas. -/
def updateInputValid (i : UpdatePageInput) : Bool :=
  (match i.title with
   | some t => decide (0 < t.length)
   | none => true) &&
  (match i.slug with
   | some s => slugValid s
   | none => true)

/-! ## Persistence lookups (Prisma query translations) -/

/-- `db.site.findUnique`-style lookup by id. -/
def DB.siteById (db : DB) (sid : String) : Option Site :=
  db.sites.find? (fun s => s.id == sid)

/-- `db.site.findFirst({ where: { id, tenantId } })`. -/
def DB.siteInTenant (db : DB) (tid sid : String) : Option Site :=
  db.sites.find? (fun s => s.id == sid && s.tenantId == tid)

/-- The tenant owning a page, traversed through its site (the Prisma
relation filter `site: { tenantId }`). -/
def DB.pageTenant (db : DB) (p : Page) : Option String :=
  (db.siteById p.siteId).map Site.tenantId

/-- `db.page.findFirst({ where: { id, site: { tenantId } } })`. -/
def DB.pageInTenant (db : DB) (tid pid : String) : Option Page :=
  db.pages.find? (fun p => p.id == pid && db.pageTenant p == some tid)

/-- `db.page.findUnique({ where: { siteId_slug: { siteId, slug } } })`. -/
def DB.pageBySlug (db : DB) (sid slug : String) : Option Page :=
  db.pages.find? (fun p => p.siteId == sid && p.slug == slug)

/-- The tenant owning a media row, traversed through its site. -/
def DB.mediaTenant (db : DB) (m : Media) : Option String :=
  (db.siteById m.siteId).map Site.tenantId

/-- `db.media.findFirst({ where: { id, site: { tenantId } } })`. -/
def DB.mediaInTenant (db : DB) (tid mid : String) : Option Media :=
  db.media.find? (fun m => m.id == mid && db.mediaTenant m == some tid)

/-- `db.media.findFirst({ where: { siteId, filename } })`. -/
def DB.mediaByFilename (db : DB) (sid fn : String) : Option Media :=
  db.media.find? (fun m => m.siteId == sid && m.filename == fn)

/-- `db.site.findUnique({ where: { domain } })`. -/
def DB.siteByDomain (db : DB) (d : String) : Option Site :=
  db.sites.find? (fun s => s.domain == some d)

/-! ## Page write operations -/

/-- POST /pages home-page clear:
`db.page.updateMany({ where: { siteId, isHomePage: true }, data: { isHomePage: false } })`. -/
def clearHomePages (pages : List Page) (sid : String) : List Page :=
  pages.map (fun p =>
    if p.siteId == sid && p.isHomePage then { p with isHomePage := false } else p)

/-- PUT /pages/:id home-page clear:
`db.page.updateMany({ where: { siteId, isHomePage: true, id: { not: id } }, data: { isHomePage: false } })`. -/
def clearHomePagesExcept (pages : List Page) (sid pid : String) : List Page :=
  pages.map (fun p =>
    if p.siteId == sid && p.isHomePage && p.id != pid then { p with isHomePage := false } else p)

/-- The `updateData` object of PUT /pages/:id applied to a page row:
supplied fields overwrite, absent fields are untouched, and `publishedAt`
is stamped with `now` exactly when the handler added it to `updateData`. -/
def applyPageUpdate (i : UpdatePageInput) (now : Nat) (stamp : Bool) (p : Page) : Page :=
  { p with
    title := i.title.getD p.title
    slug := i.slug.getD p.slug
    status := i.status.getD p.status
    isHomePage := i.isHomePage.getD p.isHomePage
    publishedAt := if stamp then some now else p.publishedAt }

/-- `db.page.update({ where: { id }, data: updateData })` over the list model. -/
def updatePageList (pages : List Page) (pid : String) (i : UpdatePageInput) (now : Nat)
    (stamp : Bool) : List Page :=
  pages.map (fun p => if p.id == pid then applyPageUpdate i now stamp p else p)

/-- The row written by `db.page.create` in POST /pages: status defaults to
DRAFT, isHomePage defaults to false, authorId is the caller, publishedAt is
stamped iff the initial status is PUBLISHED. -/
def newPageRow (u : Identity) (i : CreatePageInput) (newId : String) (now : Nat) : Page :=
  { id := newId
    siteId := i.siteId
    title := i.title
    slug := i.slug
    status := i.status.getD .DRAFT
    isHomePage := i.isHomePage.getD false
    authorId := u.id
    publishedAt := if i.status.getD .DRAFT = .PUBLISHED then some now else none }

/-! ## Page route handlers -/

/-- GET /pages/:id (after authenticate): tenant-scoped lookup, 404 when absent. -/
def getPageById (u : Identity) (db : DB) (pid : String) : Outcome Page :=
  match db.pageInTenant u.tenantId pid with
  | none => .err pageNotFound
  | some pg => .ok pg

/-- The state POST /pages leaves after its writes: the optional
`updateMany` home-page clear followed by the `create`. -/
def createAppliedDB (u : Identity) (db : DB) (i : CreatePageInput) (newId : String)
    (now : Nat) : DB :=
  { db with pages :=
      (if i.isHomePage.getD false then clearHomePages db.pages i.siteId else db.pages)
      ++ [newPageRow u i newId now] }

/-- POST /pages handler body: parse, tenant-scoped site lookup, slug
uniqueness check, optional home-page clear, create.  `newId` is the id the
store assigns to the created row and `now` the clock reading. -/
def createPage (u : Identity) (db : DB) (i : CreatePageInput) (newId : String) (now : Nat) :
    Outcome Page × DB :=
  if ¬ createInputValid i then (.err validationErr, db)
  else match db.siteInTenant u.tenantId i.siteId with
  | none => (.err siteNotFoundForCreate, db)
  | some _ =>
    match db.pageBySlug i.siteId i.slug with
    | some _ => (.err slugExistsErr, db)
    | none => (.ok (newPageRow u i newId now), createAppliedDB u db i newId now)

/-- The conditional slug-uniqueness check of PUT /pages/:id: performed only
when a slug is supplied and differs from the page's current slug. -/
def slugTaken (db : DB) (pg : Page) (i : UpdatePageInput) : Bool :=
  match i.slug with
  | some s => s != pg.slug && (db.pageBySlug pg.siteId s).isSome
  | none => false

/-- The condition under which PUT /pages/:id adds `publishedAt: new Date()`
to `updateData`: requested status is PUBLISHED and the stored status is not. -/
def stampCond (i : UpdatePageInput) (pg : Page) : Bool :=
  i.status == some .PUBLISHED && pg.status != .PUBLISHED

/-- The state PUT /pages/:id leaves after its writes: the optional
`updateMany` clear of the other pages of `pg`'s site, then the `update`. -/
def updateAppliedDB (db : DB) (pg : Page) (pid : String) (i : UpdatePageInput)
    (now : Nat) : DB :=
  { db with pages :=
      (updatePageList
        (if i.isHomePage.getD false then clearHomePagesExcept db.pages pg.siteId pid
          else db.pages)
        pid i now (stampCond i pg)) }

/-- PUT /pages/:id handler body: parse, tenant-scoped page lookup, editor
ownership check, conditional slug uniqueness check (only when a slug is
supplied and differs), optional home-page clear, update with conditional
publishedAt stamping. -/
def updatePage (u : Identity) (db : DB) (pid : String) (i : UpdatePageInput) (now : Nat) :
    Outcome Page × DB :=
  if ¬ updateInputValid i then (.err validationErr, db)
  else match db.pageInTenant u.tenantId pid with
  | none => (.err pageNotFound, db)
  | some pg =>
    if u.role == "EDITOR" && pg.authorId != u.id then (.err notOwnerEdit, db)
    else
      if slugTaken db pg i then (.err slugExistsErr, db)
      else
        (.ok (applyPageUpdate i now (stampCond i pg) pg), updateAppliedDB db pg pid i now)

/-- The condition under which PATCH /pages/:id/publish adds
`publishedAt: new Date()`: requested status is PUBLISHED and the stored
status is not. -/
def publishStamp (st : PageStatus) (pg : Page) : Bool :=
  st == .PUBLISHED && pg.status != .PUBLISHED

/-- The `updateData` of PATCH /pages/:id/publish viewed as an update input:
only the status field is written. -/
def publishInput (st : PageStatus) : UpdatePageInput :=
  { title := none, slug := none, status := some st, isHomePage := none }

/-- PATCH /pages/:id/publish handler body: parse required status,
tenant-scoped lookup, editor ownership check, status update with
conditional publishedAt stamping. -/
def publishPage (u : Identity) (db : DB) (pid : String) (st : PageStatus) (now : Nat) :
    Outcome Page × DB :=
  match db.pageInTenant u.tenantId pid with
  | none => (.err pageNotFound, db)
  | some pg =>
    if u.role == "EDITOR" && pg.authorId != u.id then (.err notOwnerModify, db)
    else
      (.ok (applyPageUpdate (publishInput st) now (publishStamp st pg) pg),
       { db with pages := updatePageList db.pages pid (publishInput st) now (publishStamp st pg) })

/-- DELETE /pages/:id handler body: tenant-scoped lookup, editor ownership
check, `db.page.delete({ where: { id } })`. -/
def deletePage (u : Identity) (db : DB) (pid : String) : Outcome Unit × DB :=
  match db.pageInTenant u.tenantId pid with
  | none => (.err pageNotFound, db)
  | some pg =>
    if u.role == "EDITOR" && pg.authorId != u.id then (.err notOwnerDelete, db)
    else (.ok (), { db with pages := db.pages.filter (fun p => p.id != pid) })

/-! ## Role middleware and routed entry points -/

/-- `AuthMiddleware.requireRole(...roles)`: 403 unless the caller role is in
the list. -/
def requireRole (roles : List String) (u : Identity) : Option ErrResponse :=
  if roles.contains u.role then none else some (roleErr roles u.role)

/-- The role list `("ADMIN", "EDITOR", "SUPER_ADMIN")` guarding every page
and media mutation route. -/
def editorRoles : List String := ["ADMIN", "EDITOR", "SUPER_ADMIN"]

/-- Full PUT /pages/:id route: requireRole middleware then handler. -/
def putPageRoute (u : Identity) (db : DB) (pid : String) (i : UpdatePageInput) (now : Nat) :
    Outcome Page × DB :=
  match requireRole editorRoles u with
  | some e => (.err e, db)
  | none => updatePage u db pid i now

/-- Full DELETE /pages/:id route: requireRole middleware then handler. -/
def deletePageRoute (u : Identity) (db : DB) (pid : String) : Outcome Unit × DB :=
  match requireRole editorRoles u with
  | some e => (.err e, db)
  | none => deletePage u db pid

/-! ## Media route handlers -/

/-- UpdateMediaSchema: `{ filename?: string, alt?: string }` (no further
constraints, so parsing never fails). -/
structure UpdateMediaInput where
  filename : Option String
  alt : Option String
deriving DecidableEq, Repr

/-- GET /media/:id (after authenticate): tenant-scoped lookup, 404 when absent. -/
def getMediaById (u : Identity) (db : DB) (mid : String) : Outcome Media :=
  match db.mediaInTenant u.tenantId mid with
  | none => .err mediaNotFound
  | some m => .ok m

/-- The `data` object of PUT /media/:id applied to a media row. -/
def applyMediaUpdate (i : UpdateMediaInput) (m : Media) : Media :=
  { m with
    filename := i.filename.getD m.filename
    alt := match i.alt with
           | some a => some a
           | none => m.alt }

/-- PUT /media/:id handler body: tenant-scoped lookup, conditional filename
uniqueness check (only when a filename is supplied and differs), update.
No ownership/author condition appears anywhere in this handler. -/
def updateMedia (u : Identity) (db : DB) (mid : String) (i : UpdateMediaInput) :
    Outcome Media × DB :=
  match db.mediaInTenant u.tenantId mid with
  | none => (.err mediaNotFound, db)
  | some m =>
    let filenameConflict :=
      match i.filename with
      | some f => f != m.filename && (db.mediaByFilename m.siteId f).isSome
      | none => false
    if filenameConflict then (.err filenameExistsErr, db)
    else
      (.ok (applyMediaUpdate i m),
       { db with media := db.media.map (fun x => if x.id == mid then applyMediaUpdate i x else x) })

/-- DELETE /media/:id handler body: tenant-scoped lookup then
`db.media.delete({ where: { id } })`.  No ownership/author condition. -/
def deleteMedia (u : Identity) (db : DB) (mid : String) : Outcome Unit × DB :=
  match db.mediaInTenant u.tenantId mid with
  | none => (.err mediaNotFound, db)
  | some _ => (.ok (), { db with media := db.media.filter (fun m => m.id != mid) })

/-- Full PUT /media/:id route: requireRole("ADMIN","EDITOR","SUPER_ADMIN")
middleware then handler. -/
def putMediaRoute (u : Identity) (db : DB) (mid : String) (i : UpdateMediaInput) :
    Outcome Media × DB :=
  match requireRole editorRoles u with
  | some e => (.err e, db)
  | none => updateMedia u db mid i

/-- Full DELETE /media/:id route: requireRole middleware then handler. -/
def deleteMediaRoute (u : Identity) (db : DB) (mid : String) : Outcome Unit × DB :=
  match requireRole editorRoles u with
  | some e => (.err e, db)
  | none => deleteMedia u db mid

/-! ## Sites route handlers (the parts the claims consult) -/

/-- UpdateSiteSchema = CreateSiteSchema.partial(): name/domain/theme
optional (seoSettings/description opaque, omitted). -/
structure UpdateSiteInput where
  name : Option String
  domain : Option String
  theme : Option String
deriving DecidableEq, Repr

/-- UpdateSiteSchema `.parse` succeeds: `name.min(1)` when present. -/
def updateSiteValid (i : UpdateSiteInput) : Bool :=
  match i.name with
  | some n => decide (0 < n.length)
  | none => true

/-- GET /sites/:id (after authenticate): tenant-scoped lookup, 404 when absent. -/
def getSiteById (u : Identity) (db : DB) (sid : String) : Outcome Site :=
  match db.siteInTenant u.tenantId sid with
  | none => .err siteNotFound
  | some s => .ok s

/-- PUT /sites/:id handler body: parse, tenant-scoped lookup, conditional
global domain uniqueness check, update. -/
def updateSite (u : Identity) (db : DB) (sid : String) (i : UpdateSiteInput) :
    Outcome Site × DB :=
  if ¬ updateSiteValid i then (.err validationErr, db)
  else match db.siteInTenant u.tenantId sid with
  | none => (.err siteNotFound, db)
  | some s =>
    let domainConflict :=
      match i.domain with
      | some d => s.domain != some d && (db.siteByDomain d).isSome
      | none => false
    if domainConflict then (.err domainTakenErr, db)
    else
      let upd (x : Site) : Site :=
        { x with
          name := i.name.getD x.name
          domain := match i.domain with
                    | some d => some d
                    | none => x.domain
          theme := i.theme.getD x.theme }
      (.ok (upd s), { db with sites := db.sites.map (fun x => if x.id == sid then upd x else x) })

/-- PATCH /sites/:id/publish handler body: tenant-scoped lookup, set
isPublished. -/
def publishSite (u : Identity) (db : DB) (sid : String) (pub : Bool) : Outcome Site × DB :=
  match db.siteInTenant u.tenantId sid with
  | none => (.err siteNotFound, db)
  | some s =>
    (.ok { s with isPublished := pub },
     { db with sites := db.sites.map (fun x => if x.id == sid then { x with isPublished := pub } else x) })

/-- DELETE /sites/:id handler body: tenant-scoped lookup, delete with
cascade to the site's pages and media (Prisma onDelete cascade). -/
def deleteSite (u : Identity) (db : DB) (sid : String) : Outcome Unit × DB :=
  match db.siteInTenant u.tenantId sid with
  | none => (.err siteNotFound, db)
  | some _ =>
    (.ok (),
     { db with
       sites := db.sites.filter (fun s => s.id != sid)
       pages := db.pages.filter (fun p => p.siteId != sid)
       media := db.media.filter (fun m => m.siteId != sid) })

/-! ## Auth middleware (token verification) -/

/-- A decoded JWT payload as seen after `jwt.verify` succeeds: an untyped
object whose fields may each be absent.  `payloadType` models the source
field named `type` (a Lean keyword). -/
structure DecodedPayload where
  userId : Option String
  email : Option String
  role : Option String
  tenantId : Option String
  payloadType : Option String
deriving DecidableEq, Repr

/-- The typed access-token payload JWTPayloadSchema describes:
`{ userId, email, role, tenantId }`, all strings, email in email format. -/
structure TokenPayload where
  userId : String
  email : String
  role : String
  tenantId : String
deriving DecidableEq, Repr

/-- Approximation of `z.string().email()`: the claims below depend only on
the presence or absence of the email field, never on this format test. -/
def emailFormatOk (s : String) : Bool :=
  s.toList.contains '@'

/-- `JWTPayloadSchema.parse(decoded)`: succeeds iff userId, email, role and
tenantId are all present (and email passes the format test); otherwise the
parse throws a ZodError, modelled as `none`. -/
def jwtPayloadParse (p : DecodedPayload) : Option TokenPayload :=
  match p.userId, p.email, p.role, p.tenantId with
  | some uid, some em, some r, some t =>
    if emailFormatOk em then some ⟨uid, em, r, t⟩ else none
  | _, _, _, _ => none

/-- The payload `AuthMiddleware.generateRefreshToken` signs:
`{ userId, type: "refresh" }` — no email, role or tenantId. -/
def refreshTokenPayload (userId : String) : DecodedPayload :=
  { userId := some userId, email := none, role := none, tenantId := none,
    payloadType := some "refresh" }

/-- Outcome of the `jwt.verify(token, JWT_SECRET)` collaborator: either it
throws a JsonWebTokenError (bad signature, malformed, expired) or it
returns the decoded payload object. -/
inductive VerifyOutcome
  | jwtError
  | decoded (p : DecodedPayload)
deriving DecidableEq, Repr

/-- Result of the authenticate middleware: the populated `req.user`
identity, or the error response it sends. -/
inductive AuthResult
  | ok (u : Identity)
  | err (e : ErrResponse)
deriving DecidableEq, Repr

/-- 401 when the Authorization header is missing or not a Bearer header. -/
def authRequiredErr : ErrResponse :=
  ⟨401, "Authentication required", "Please provide a valid Bearer token"⟩

/-- 401 from the catch branch for `jwt.JsonWebTokenError`. -/
def invalidTokenJwtErr : ErrResponse :=
  ⟨401, "Invalid token", "JWT token is malformed or expired"⟩

/-- 500 from the generic catch branch: any thrown error that is not a
JsonWebTokenError (in particular the ZodError of a failed
`JWTPayloadSchema.parse`) lands here. -/
def authInternalErr : ErrResponse :=
  ⟨500, "Authentication failed", "Internal server error during authentication"⟩

/-- 401 when the token's user no longer exists or is inactive. -/
def userGoneErr : ErrResponse :=
  ⟨401, "Invalid token", "User not found or inactive"⟩

/-- Strip the "Bearer " marker from the Authorization header:
`authHeader.startsWith("Bearer ")` then `authHeader.substring(7)`,
expressed over the character list. -/
def bearerToken (authHeader : Option String) : Option String :=
  match authHeader with
  | none => none
  | some h =>
    if h.toList.take 7 = "Bearer ".toList then some (h.toList.drop 7).asString else none

/-- `AuthMiddleware.authenticate`: header check, `jwt.verify`,
`JWTPayloadSchema.parse`, then the active-user lookup
(`db.user.findUnique({ where: { id, isActive: true } })`).  The catch
translates JsonWebTokenError to 401 and everything else (ZodError
included) to 500. -/
def authenticate (authHeader : Option String) (verifyTok : String → VerifyOutcome)
    (users : List UserRec) : AuthResult :=
  match bearerToken authHeader with
  | none => .err authRequiredErr
  | some tok =>
    match verifyTok tok with
    | .jwtError => .err invalidTokenJwtErr
    | .decoded payload =>
      match jwtPayloadParse payload with
      | none => .err authInternalErr
      | some pl =>
        match users.find? (fun usr => usr.id == pl.userId && usr.isActive) with
        | none => .err userGoneErr
        | some usr => .ok ⟨usr.id, usr.email, usr.role, usr.tenantId⟩

/-! ## Login handler -/

/-- Login outcome: the logged-in user row, or the error response. -/
inductive LoginResult
  | ok (u : UserRec)
  | err (e : ErrResponse)
deriving DecidableEq, Repr

/-- 401 sent both for an unknown/inactive email and for a wrong password. -/
def invalidCredentialsErr : ErrResponse :=
  ⟨401, "Invalid credentials", "Email or password is incorrect"⟩

/-- LoginSchema `.parse` succeeds: email format, password nonempty. -/
def loginInputValid (email pw : String) : Bool :=
  emailFormatOk email && decide (0 < pw.length)

/-- `db.user.findUnique({ where: { email, isActive: true } })`. -/
def findActiveUser (users : List UserRec) (email : String) : Option UserRec :=
  users.find? (fun usr => usr.email == email && usr.isActive)

/-- POST /auth/login handler body.  `bcryptCompare pw hash` models the
`bcrypt.compare` collaborator. -/
def login (users : List UserRec) (bcryptCompare : String → String → Bool)
    (email pw : String) : LoginResult :=
  if ¬ loginInputValid email pw then .err validationErr
  else match findActiveUser users email with
  | none => .err invalidCredentialsErr
  | some usr =>
    if bcryptCompare pw usr.password then .ok usr else .err invalidCredentialsErr

/-! ## Home-page singleton invariant machinery -/

/-- The predicate "p is a home page of site sid". -/
def isHomeIn (sid : String) (p : Page) : Bool :=
  p.siteId == sid && p.isHomePage

/-- Number of pages of site `sid` carrying `isHomePage = true`. -/
def homeCount (pages : List Page) (sid : String) : Nat :=
  pages.countP (isHomeIn sid)

/-- The home-page singleton invariant of section 4.3 of the design:
for every site, at most one of its pages is marked as home page. -/
def homeInvariant (db : DB) : Prop :=
  ∀ sid : String, homeCount db.pages sid ≤ 1

/-- Well-formedness the store guarantees: page ids are primary keys,
hence pairwise distinct. -/
def pagesWf (db : DB) : Prop :=
  (db.pages.map Page.id).Nodup

/-- A page-mutating request: the create and update operations the claim
quantifies over, each carrying the caller, the parsed input, and the
store-assigned id / clock reading. -/
inductive PageOp
  | create (u : Identity) (i : CreatePageInput) (newId : String) (now : Nat)
  | update (u : Identity) (pid : String) (i : UpdatePageInput) (now : Nat)
deriving Repr

/-- State reached after a request completes (error responses leave the
state as the handler left it, which for every handled error is the input
state). -/
def applyPageOp (db : DB) : PageOp → DB
  | .create u i newId now => (createPage u db i newId now).2
  | .update u pid i now => (updatePage u db pid i now).2

/-- Run a sequence of page requests. -/
def applyPageOps (db : DB) (ops : List PageOp) : DB :=
  ops.foldl applyPageOp db

/-- The id the store assigns to a created row is fresh (ids are generated
primary keys); updates need nothing. -/
def freshOk (db : DB) : PageOp → Prop
  | .create _ _ newId _ => newId ∉ db.pages.map Page.id
  | .update _ _ _ _ => True

/-- Freshness of every store-assigned id along a run. -/
def freshOps : DB → List PageOp → Prop
  | _, [] => True
  | db, op :: rest => freshOk db op ∧ freshOps (applyPageOp db op) rest

/-! ## Concrete sample data -/

/-- A sample site of tenant t1. -/
def sampleSite : Site :=
  { id := "s1", tenantId := "t1", name := "Blog", domain := some "acme.com",
    theme := "default", isPublished := false }

/-- A sample archived page of site s1 that was first published at time 100. -/
def samplePage : Page :=
  { id := "p1", siteId := "s1", title := "Home", slug := "home",
    status := .ARCHIVED, isHomePage := false, authorId := "u1", publishedAt := some 100 }

/-- Sample database: one site, one page, no media. -/
def sampleDB : DB :=
  { sites := [sampleSite], pages := [samplePage], media := [] }

/-- A sample ADMIN identity of tenant t1. -/
def adminUser : Identity :=
  { id := "u1", email := "a@acme.com", role := "ADMIN", tenantId := "t1" }

/-- A sample EDITOR identity of tenant t1, distinct from the page author. -/
def editorUser : Identity :=
  { id := "u2", email := "e@acme.com", role := "EDITOR", tenantId := "t1" }

/-- A sample identity of a different tenant t2. -/
def otherTenantUser : Identity :=
  { id := "u9", email := "x@other.com", role := "ADMIN", tenantId := "t2" }

/-- Sample media row in site s1. -/
def sampleMedia : Media :=
  { id := "m1", siteId := "s1", filename := "pic.png", originalName := "pic.png",
    mimeType := "image/png", size := 10, url := "https://cdn/pic.png", alt := none }

/-- Sample database with a media row. -/
def sampleDBm : DB :=
  { sites := [sampleSite], pages := [samplePage], media := [sampleMedia] }

/-! ## Concrete race scenario for the home-page check-then-write window.
Each PUT /pages/:id request performs two separate awaited store
operations — the `updateMany` clear and the `update` write — with no
surrounding transaction (`db.$transaction` appears only in /auth/register).
The scenario interleaves two requests: A sets p1 as home, B sets p2 as
home, in the order A-clear, B-clear, A-write, B-write. -/

/-- The update body `{ isHomePage: true }` sent by both racing requests. -/
def homeReq : UpdatePageInput :=
  { title := none, slug := none, status := none, isHomePage := some true }

/-- Page p1 of the racing site, initially the home page. -/
def racePage1 : Page :=
  { id := "p1", siteId := "s1", title := "One", slug := "one",
    status := .DRAFT, isHomePage := true, authorId := "u1", publishedAt := none }

/-- Page p2 of the racing site. -/
def racePage2 : Page :=
  { id := "p2", siteId := "s1", title := "Two", slug := "two",
    status := .DRAFT, isHomePage := false, authorId := "u1", publishedAt := none }

/-- Initial state of the race: one site, two pages, one home page. -/
def raceDB : DB :=
  { sites := [sampleSite], pages := [racePage1, racePage2], media := [] }

/-- Request A's `updateMany` clear step (for target p1). -/
def raceStep1 : List Page := clearHomePagesExcept raceDB.pages "s1" "p1"

/-- Request B's `updateMany` clear step (for target p2), interleaved before
A's write. -/
def raceStep2 : List Page := clearHomePagesExcept raceStep1 "s1" "p2"

/-- Request A's `update` write step: set p1 as home. -/
def raceStep3 : List Page := updatePageList raceStep2 "p1" homeReq 0 false

/-- Request B's `update` write step: set p2 as home. -/
def raceStep4 : List Page := updatePageList raceStep3 "p2" homeReq 0 false

/-! ## Helper lemmas -/

theorem find?_some_spec {α} {p : α → Bool} {l : List α} {a : α}
    (h : l.find? p = some a) : a ∈ l ∧ p a = true :=
  ⟨List.mem_of_find?_eq_some h, List.find?_some h⟩

theorem pageInTenant_spec {db : DB} {tid pid : String} {pg : Page}
    (h : db.pageInTenant tid pid = some pg) :
    pg ∈ db.pages ∧ pg.id = pid ∧ db.pageTenant pg = some tid := by
  unfold DB.pageInTenant at h
  obtain ⟨hmem, hp⟩ := find?_some_spec h
  simp only [Bool.and_eq_true, beq_iff_eq] at hp
  exact ⟨hmem, hp.1, hp.2⟩

theorem mediaInTenant_spec {db : DB} {tid mid : String} {m : Media}
    (h : db.mediaInTenant tid mid = some m) :
    m ∈ db.media ∧ m.id = mid ∧ db.mediaTenant m = some tid := by
  unfold DB.mediaInTenant at h
  obtain ⟨hmem, hp⟩ := find?_some_spec h
  simp only [Bool.and_eq_true, beq_iff_eq] at hp
  exact ⟨hmem, hp.1, hp.2⟩

theorem siteInTenant_spec {db : DB} {tid sid : String} {s : Site}
    (h : db.siteInTenant tid sid = some s) :
    s ∈ db.sites ∧ s.id = sid ∧ s.tenantId = tid := by
  unfold DB.siteInTenant at h
  obtain ⟨hmem, hp⟩ := find?_some_spec h
  simp only [Bool.and_eq_true, beq_iff_eq] at hp
  exact ⟨hmem, hp.1, hp.2⟩

theorem map_id_of_preserve {f : Page → Page} (hf : ∀ p, (f p).id = p.id) (l : List Page) :
    (l.map f).map Page.id = l.map Page.id := by
  rw [List.map_map]
  exact List.map_congr_left (fun a _ => hf a)

theorem clearHomePages_map_id (l : List Page) (sid : String) :
    (clearHomePages l sid).map Page.id = l.map Page.id := by
  unfold clearHomePages
  refine map_id_of_preserve (fun p => ?_) l
  by_cases h : (p.siteId == sid && p.isHomePage) = true <;> simp [h]

theorem clearHomePagesExcept_map_id (l : List Page) (sid pid : String) :
    (clearHomePagesExcept l sid pid).map Page.id = l.map Page.id := by
  unfold clearHomePagesExcept
  refine map_id_of_preserve (fun p => ?_) l
  by_cases h : (p.siteId == sid && p.isHomePage && p.id != pid) = true <;> simp [h]

theorem updatePageList_map_id (l : List Page) (pid : String) (i : UpdatePageInput)
    (now : Nat) (st : Bool) :
    (updatePageList l pid i now st).map Page.id = l.map Page.id := by
  unfold updatePageList
  refine map_id_of_preserve (fun p => ?_) l
  by_cases h : (p.id == pid) = true <;> simp [h, applyPageUpdate]

theorem homeCount_le_one_of_key {l : List Page} {sid k : String}
    (hnd : (l.map Page.id).Nodup) (h : ∀ p ∈ l, isHomeIn sid p = true → p.id = k) :
    homeCount l sid ≤ 1 := by
  unfold homeCount
  induction l with
  | nil => simp
  | cons a t ih =>
    rw [List.map_cons, List.nodup_cons] at hnd
    rw [List.countP_cons]
    by_cases hca : isHomeIn sid a = true
    · have ht : t.countP (isHomeIn sid) = 0 := by
        rw [List.countP_eq_zero]
        intro x hx hcx
        have hxk : x.id = k := h x (List.mem_cons_of_mem _ hx) hcx
        have hak : a.id = k := h a (List.mem_cons_self a t) hca
        apply hnd.1
        rw [hak, ← hxk]
        exact List.mem_map_of_mem _ hx
      simp [hca, ht]
    · rw [if_neg hca]
      have := ih hnd.2 (fun p hp hc => h p (List.mem_cons_of_mem _ hp) hc)
      omega

theorem homeCount_map_le {f : Page → Page} {l : List Page} {sid : String}
    (hf : ∀ p ∈ l, isHomeIn sid (f p) = true → isHomeIn sid p = true) :
    homeCount (l.map f) sid ≤ homeCount l sid := by
  unfold homeCount
  rw [List.countP_map]
  exact List.countP_mono_left hf

theorem clearHomePages_self (l : List Page) (sid : String) :
    homeCount (clearHomePages l sid) sid = 0 := by
  unfold homeCount clearHomePages
  rw [List.countP_eq_zero]
  intro q hq
  obtain ⟨p, _, rfl⟩ := List.mem_map.mp hq
  split
  · simp [isHomeIn]
  · rename_i hcond
    exact hcond

theorem clearHomePages_le (l : List Page) (sid sid₀ : String) :
    homeCount (clearHomePages l sid) sid₀ ≤ homeCount l sid₀ := by
  unfold clearHomePages
  apply homeCount_map_le
  intro p _
  split
  · simp [isHomeIn]
  · exact id

theorem clearHomePagesExcept_le (l : List Page) (sid pid sid₀ : String) :
    homeCount (clearHomePagesExcept l sid pid) sid₀ ≤ homeCount l sid₀ := by
  unfold clearHomePagesExcept
  apply homeCount_map_le
  intro p _
  split
  · simp [isHomeIn]
  · exact id

theorem clearHomePagesExcept_key {l : List Page} {sid pid : String} :
    ∀ q ∈ clearHomePagesExcept l sid pid, isHomeIn sid q = true → q.id = pid := by
  intro q hq
  unfold clearHomePagesExcept at hq
  obtain ⟨p, _, rfl⟩ := List.mem_map.mp hq
  split
  · simp [isHomeIn]
  · rename_i hcond
    intro hhome
    unfold isHomeIn at hhome
    simp only [Bool.and_eq_true, beq_iff_eq, bne_iff_ne, ne_eq] at hcond hhome
    tauto

theorem mem_clearHomePagesExcept {l : List Page} {sid pid : String} {q : Page}
    (hq : q ∈ clearHomePagesExcept l sid pid) :
    ∃ p, p ∈ l ∧ q.id = p.id ∧ q.siteId = p.siteId := by
  unfold clearHomePagesExcept at hq
  obtain ⟨p, hp, rfl⟩ := List.mem_map.mp hq
  refine ⟨p, hp, ?_, ?_⟩ <;> (split <;> rfl)

theorem createAppliedDB_inv (u : Identity) (db : DB) (i : CreatePageInput) (newId : String)
    (now : Nat) (hwf : pagesWf db) (hinv : homeInvariant db)
    (hfresh : newId ∉ db.pages.map Page.id) :
    pagesWf (createAppliedDB u db i newId now) ∧ homeInvariant (createAppliedDB u db i newId now) := by
  have hmap : ((if i.isHomePage.getD false then clearHomePages db.pages i.siteId
      else db.pages)).map Page.id = db.pages.map Page.id := by
    by_cases hb : i.isHomePage.getD false = true
    · rw [if_pos hb]; exact clearHomePages_map_id _ _
    · rw [if_neg hb]
  constructor
  · unfold pagesWf createAppliedDB
    dsimp only
    rw [List.map_append, hmap]
    simp only [List.map_cons, List.map_nil]
    rw [List.nodup_append]
    refine ⟨hwf, by simp, ?_⟩
    intro x hx hmem
    simp only [List.mem_singleton] at hmem
    subst hmem
    exact hfresh hx
  · intro sid₀
    unfold createAppliedDB homeCount
    dsimp only
    rw [List.countP_append]
    have hsingle : List.countP (isHomeIn sid₀) [newPageRow u i newId now]
        = if isHomeIn sid₀ (newPageRow u i newId now) = true then 1 else 0 := by
      simp [List.countP_cons]
    by_cases hb : i.isHomePage.getD false = true
    · rw [if_pos hb]
      by_cases hsid : sid₀ = i.siteId
      · subst hsid
        have h0 := clearHomePages_self db.pages i.siteId
        unfold homeCount at h0
        rw [h0, hsingle]
        split <;> simp
      · have hle : List.countP (isHomeIn sid₀) (clearHomePages db.pages i.siteId)
            ≤ List.countP (isHomeIn sid₀) db.pages := clearHomePages_le db.pages i.siteId sid₀
        have hnew : isHomeIn sid₀ (newPageRow u i newId now) = false := by
          unfold isHomeIn newPageRow
          simp only [Bool.and_eq_false_iff, beq_eq_false_iff_ne, ne_eq]
          exact Or.inl (fun he => hsid he.symm)
        rw [hsingle, hnew]
        have := hinv sid₀
        unfold homeCount at this
        simp only [Bool.false_eq_true, if_false]
        omega
    · rw [if_neg hb]
      have hnew : isHomeIn sid₀ (newPageRow u i newId now) = false := by
        unfold isHomeIn newPageRow
        dsimp only
        have : i.isHomePage.getD false = false := by
          revert hb
          cases i.isHomePage.getD false <;> simp
        rw [this]
        simp
      rw [hsingle, hnew]
      have := hinv sid₀
      unfold homeCount at this
      simp only [Bool.false_eq_true, if_false]
      omega

theorem updateAppliedDB_inv (db : DB) (pg : Page) (pid : String) (i : UpdatePageInput)
    (now : Nat) (hwf : pagesWf db) (hinv : homeInvariant db)
    (hmem : pg ∈ db.pages) (hid : pg.id = pid) :
    pagesWf (updateAppliedDB db pg pid i now) ∧ homeInvariant (updateAppliedDB db pg pid i now) := by
  have hl1 : (if i.isHomePage.getD false then clearHomePagesExcept db.pages pg.siteId pid
      else db.pages).map Page.id = db.pages.map Page.id := by
    by_cases hb : i.isHomePage.getD false = true
    · rw [if_pos hb]; exact clearHomePagesExcept_map_id _ _ _
    · rw [if_neg hb]
  have hwf2 : pagesWf (updateAppliedDB db pg pid i now) := by
    unfold pagesWf updateAppliedDB
    dsimp only
    rw [updatePageList_map_id, hl1]
    exact hwf
  refine ⟨hwf2, ?_⟩
  intro sid₀
  unfold updateAppliedDB
  dsimp only
  by_cases hb : i.isHomePage.getD false = true
  · rw [if_pos hb]
    by_cases hsid : sid₀ = pg.siteId
    · subst hsid
      apply homeCount_le_one_of_key (k := pid)
      · rw [updatePageList_map_id, clearHomePagesExcept_map_id]; exact hwf
      · intro q hq hhome
        unfold updatePageList at hq
        obtain ⟨p', hp', rfl⟩ := List.mem_map.mp hq
        revert hhome
        by_cases hpid : (p'.id == pid) = true
        · rw [if_pos hpid]
          intro _
          exact beq_iff_eq.mp hpid
        · rw [if_neg hpid]
          intro hhome
          exact clearHomePagesExcept_key p' hp' hhome
    · have hstep1 : homeCount (updatePageList (clearHomePagesExcept db.pages pg.siteId pid)
          pid i now (stampCond i pg)) sid₀
          ≤ homeCount (clearHomePagesExcept db.pages pg.siteId pid) sid₀ := by
        unfold updatePageList
        apply homeCount_map_le
        intro p' hp'
        by_cases hpid : (p'.id == pid) = true
        · rw [if_pos hpid]
          intro habs
          exfalso
          simp only [isHomeIn, applyPageUpdate, Bool.and_eq_true, beq_iff_eq] at habs
          have hpid' : p'.id = pid := beq_iff_eq.mp hpid
          obtain ⟨p, hpmem, hpi, hps⟩ := mem_clearHomePagesExcept hp'
          have hpID : p.id = pg.id := by rw [← hpi, hpid', ← hid]
          have hppg : p = pg := List.inj_on_of_nodup_map hwf hpmem hmem hpID
          exact hsid (by rw [← habs.1, hps, hppg])
        · rw [if_neg hpid]
          exact id
      have hstep2 := clearHomePagesExcept_le db.pages pg.siteId pid sid₀
      have hstep3 := hinv sid₀
      omega
  · rw [if_neg hb]
    have hbf : i.isHomePage.getD false = false := by
      revert hb; cases i.isHomePage.getD false <;> simp
    have hstep1 : homeCount (updatePageList db.pages pid i now (stampCond i pg)) sid₀
        ≤ homeCount db.pages sid₀ := by
      unfold updatePageList
      apply homeCount_map_le
      intro p hp
      by_cases hpid : (p.id == pid) = true
      · rw [if_pos hpid]
        intro habs
        simp only [isHomeIn, applyPageUpdate, Bool.and_eq_true] at habs
        cases hih : i.isHomePage with
        | none =>
          unfold isHomeIn
          rw [Bool.and_eq_true]
          refine ⟨habs.1, ?_⟩
          have h2 := habs.2
          rw [hih] at h2
          simpa using h2
        | some b =>
          exfalso
          have hbfalse : b = false := by rw [hih] at hbf; simpa using hbf
          have h2 := habs.2
          rw [hih, hbfalse] at h2
          simp at h2
      · rw [if_neg hpid]
        exact id
    have hstep2 := hinv sid₀
    omega

theorem createPage_cases (u : Identity) (db : DB) (i : CreatePageInput) (newId : String)
    (now : Nat) :
    ((createPage u db i newId now).2 = db ∧ ∃ e, (createPage u db i newId now).1 = .err e) ∨
    ((createPage u db i newId now).1 = .ok (newPageRow u i newId now) ∧
     (createPage u db i newId now).2 = createAppliedDB u db i newId now) := by
  unfold createPage
  split
  · exact Or.inl ⟨rfl, _, rfl⟩
  split
  · exact Or.inl ⟨rfl, _, rfl⟩
  split
  · exact Or.inl ⟨rfl, _, rfl⟩
  · exact Or.inr ⟨rfl, rfl⟩

theorem updatePage_cases (u : Identity) (db : DB) (pid : String) (i : UpdatePageInput)
    (now : Nat) :
    ((updatePage u db pid i now).2 = db ∧ ∃ e, (updatePage u db pid i now).1 = .err e) ∨
    (∃ pg, db.pageInTenant u.tenantId pid = some pg ∧
      (updatePage u db pid i now).1 = .ok (applyPageUpdate i now (stampCond i pg) pg) ∧
      (updatePage u db pid i now).2 = updateAppliedDB db pg pid i now) := by
  unfold updatePage
  split
  · exact Or.inl ⟨rfl, _, rfl⟩
  split
  · exact Or.inl ⟨rfl, _, rfl⟩
  · rename_i pg heq
    split
    · exact Or.inl ⟨rfl, _, rfl⟩
    split
    · exact Or.inl ⟨rfl, _, rfl⟩
    · exact Or.inr ⟨pg, heq, rfl, rfl⟩

theorem applyPageOp_inv (db : DB) (op : PageOp)
    (hwf : pagesWf db) (hinv : homeInvariant db) (hf : freshOk db op) :
    pagesWf (applyPageOp db op) ∧ homeInvariant (applyPageOp db op) := by
  cases op with
  | create u i newId now =>
    show pagesWf (createPage u db i newId now).2 ∧ homeInvariant (createPage u db i newId now).2
    rcases createPage_cases u db i newId now with ⟨h, _⟩ | ⟨_, h⟩
    · rw [h]; exact ⟨hwf, hinv⟩
    · rw [h]; exact createAppliedDB_inv u db i newId now hwf hinv hf
  | update u pid i now =>
    show pagesWf (updatePage u db pid i now).2 ∧ homeInvariant (updatePage u db pid i now).2
    rcases updatePage_cases u db pid i now with ⟨h, _⟩ | ⟨pg, hpg, _, h⟩
    · rw [h]; exact ⟨hwf, hinv⟩
    · rw [h]
      obtain ⟨hmem, hpid, _⟩ := pageInTenant_spec hpg
      exact updateAppliedDB_inv db pg pid i now hwf hinv hmem hpid

theorem applyPageOps_inv (ops : List PageOp) : ∀ db : DB, pagesWf db → homeInvariant db →
    freshOps db ops → pagesWf (applyPageOps db ops) ∧ homeInvariant (applyPageOps db ops) := by
  induction ops with
  | nil => intro db hwf hinv _; exact ⟨hwf, hinv⟩
  | cons op rest ih =>
    intro db hwf hinv hf
    obtain ⟨hf1, hf2⟩ := hf
    obtain ⟨hwf2, hinv2⟩ := applyPageOp_inv db op hwf hinv hf1
    exact ih _ hwf2 hinv2 hf2

theorem pageInTenant_none {db : DB} {tid pid : String}
    (h : ∀ p ∈ db.pages, p.id = pid → ¬ db.pageTenant p = some tid) :
    db.pageInTenant tid pid = none := by
  unfold DB.pageInTenant
  rw [List.find?_eq_none]
  intro p hp
  simp only [Bool.and_eq_true, beq_iff_eq, not_and]
  exact h p hp

theorem mediaInTenant_none {db : DB} {tid mid : String}
    (h : ∀ m ∈ db.media, m.id = mid → ¬ db.mediaTenant m = some tid) :
    db.mediaInTenant tid mid = none := by
  unfold DB.mediaInTenant
  rw [List.find?_eq_none]
  intro m hm
  simp only [Bool.and_eq_true, beq_iff_eq, not_and]
  exact h m hm

theorem siteInTenant_none {db : DB} {tid sid : String}
    (h : ∀ s ∈ db.sites, s.id = sid → ¬ s.tenantId = tid) :
    db.siteInTenant tid sid = none := by
  unfold DB.siteInTenant
  rw [List.find?_eq_none]
  intro s hs
  simp only [Bool.and_eq_true, beq_iff_eq, not_and]
  exact h s hs

theorem publishPage_cases (u : Identity) (db : DB) (pid : String) (st : PageStatus) (now : Nat) :
    ((publishPage u db pid st now).2 = db ∧ ∃ e, (publishPage u db pid st now).1 = .err e) ∨
    (∃ pg, db.pageInTenant u.tenantId pid = some pg ∧
      (publishPage u db pid st now).1
        = .ok (applyPageUpdate (publishInput st) now (publishStamp st pg) pg) ∧
      (publishPage u db pid st now).2
        = { db with pages := updatePageList db.pages pid (publishInput st) now (publishStamp st pg) }) := by
  unfold publishPage
  split
  · exact Or.inl ⟨rfl, _, rfl⟩
  · rename_i pg heq
    split
    · exact Or.inl ⟨rfl, _, rfl⟩
    · exact Or.inr ⟨pg, heq, rfl, rfl⟩

theorem deletePage_cases (u : Identity) (db : DB) (pid : String) :
    ((deletePage u db pid).2 = db ∧ ∃ e, (deletePage u db pid).1 = .err e) ∨
    ((deletePage u db pid).1 = .ok () ∧
     (deletePage u db pid).2 = { db with pages := db.pages.filter (fun p => p.id != pid) }) := by
  unfold deletePage
  split
  · exact Or.inl ⟨rfl, _, rfl⟩
  · split
    · exact Or.inl ⟨rfl, _, rfl⟩
    · exact Or.inr ⟨rfl, rfl⟩

theorem clearHomePages_all_false {l : List Page} {sid : String} :
    ∀ q ∈ clearHomePages l sid, q.siteId = sid → q.isHomePage = false := by
  intro q hq hsite
  have h0 := clearHomePages_self l sid
  unfold homeCount at h0
  rw [List.countP_eq_zero] at h0
  have hz := h0 q hq
  unfold isHomeIn at hz
  simp only [Bool.and_eq_true, beq_iff_eq, not_and] at hz
  have := hz hsite
  simpa using this

theorem clearHomePagesExcept_all_false {l : List Page} {sid pid : String} :
    ∀ q ∈ clearHomePagesExcept l sid pid, q.siteId = sid → q.id ≠ pid → q.isHomePage = false := by
  intro q hq hsite hne
  by_contra hh
  have hh2 : q.isHomePage = true := by
    revert hh; cases q.isHomePage <;> simp
  have hhome : isHomeIn sid q = true := by
    unfold isHomeIn
    simp [hsite, hh2]
  exact hne (clearHomePagesExcept_key q hq hhome)

/-! ## Claim theorems -/

/-- A concrete create request that sets the new page as home page. -/
def cInputHome : CreatePageInput :=
  { siteId := "s1", title := "About", slug := "about", status := none, isHomePage := some true }

/-- C1: after any sequence of page create and page update requests starting
from a well-formed state satisfying the home-page singleton invariant (the
store assigning fresh primary keys to created rows), every Site still has
at most one Page with isHomePage = true; moreover every successful create
or update that sets isHomePage = true leaves isHomePage = false on every
other page of the target page's site, because the handler clears the flag
on the site's other pages before persisting the new value. -/
theorem C1_home_singleton :
    (∀ (db : DB) (ops : List PageOp), pagesWf db → homeInvariant db → freshOps db ops →
       homeInvariant (applyPageOps db ops)) ∧
    (∀ (u : Identity) (db : DB) (i : CreatePageInput) (newId : String) (now : Nat) (p : Page),
       (createPage u db i newId now).1 = .ok p → i.isHomePage = some true →
       ∀ q ∈ (createPage u db i newId now).2.pages,
         q.siteId = p.siteId → q.id ≠ p.id → q.isHomePage = false) ∧
    (∀ (u : Identity) (db : DB) (pid : String) (i : UpdatePageInput) (now : Nat) (p : Page),
       (updatePage u db pid i now).1 = .ok p → i.isHomePage = some true →
       ∀ q ∈ (updatePage u db pid i now).2.pages,
         q.siteId = p.siteId → q.id ≠ pid → q.isHomePage = false) := by
  refine ⟨?_, ?_, ?_⟩
  · intro db ops hwf hinv hf
    exact (applyPageOps_inv ops db hwf hinv hf).2
  · intro u db i newId now p hok hhome q hq hsite hne
    rcases createPage_cases u db i newId now with ⟨_, e, hfst⟩ | ⟨hfst, hsnd⟩
    · rw [hfst] at hok; simp at hok
    · rw [hfst] at hok
      injection hok with hp
      subst hp
      rw [hsnd] at hq
      unfold createAppliedDB at hq
      rw [if_pos (by rw [hhome]; rfl)] at hq
      rcases List.mem_append.mp hq with hql | hqr
      · exact clearHomePages_all_false q hql hsite
      · simp only [List.mem_singleton] at hqr
        subst hqr
        exact absurd rfl hne
  · intro u db pid i now p hok hhome q hq hsite hne
    rcases updatePage_cases u db pid i now with ⟨_, e, hfst⟩ | ⟨pg, heq, hfst, hsnd⟩
    · rw [hfst] at hok; simp at hok
    · rw [hfst] at hok
      injection hok with hp
      subst hp
      rw [hsnd] at hq
      unfold updateAppliedDB at hq
      rw [if_pos (by rw [hhome]; rfl)] at hq
      unfold updatePageList at hq
      obtain ⟨q0, hq0, rfl⟩ := List.mem_map.mp hq
      by_cases hpid : (q0.id == pid) = true
      · rw [if_pos hpid] at hsite hne ⊢
        exact absurd (beq_iff_eq.mp hpid) hne
      · rw [if_neg hpid] at hsite hne ⊢
        exact clearHomePagesExcept_all_false q0 hq0 hsite hne

/-- C1 witness: the theorem applied to a concrete run — creating a home
page in the sample database, and updating the sample page to home. -/
theorem C1_home_singleton_witness :
    homeInvariant (applyPageOps sampleDB [PageOp.create adminUser cInputHome "p2" 0]) ∧
    (∀ q ∈ (createPage adminUser sampleDB cInputHome "p2" 0).2.pages,
       q.siteId = (newPageRow adminUser cInputHome "p2" 0).siteId → q.id ≠ "p2" →
       q.isHomePage = false) ∧
    (∀ q ∈ (updatePage adminUser sampleDB "p1" homeReq 0).2.pages,
       q.siteId = (applyPageUpdate homeReq 0 (stampCond homeReq samplePage) samplePage).siteId →
       q.id ≠ "p1" → q.isHomePage = false) := by
  refine ⟨?_, ?_, ?_⟩
  · exact C1_home_singleton.1 sampleDB [PageOp.create adminUser cInputHome "p2" 0]
      (show (sampleDB.pages.map Page.id).Nodup by decide)
      (fun sid => List.countP_le_length _)
      ⟨show "p2" ∉ sampleDB.pages.map Page.id by decide, trivial⟩
  · exact C1_home_singleton.2.1 adminUser sampleDB cInputHome "p2" 0
      (newPageRow adminUser cInputHome "p2" 0) rfl rfl
  · exact C1_home_singleton.2.2 adminUser sampleDB "p1" homeReq 0
      (applyPageUpdate homeReq 0 (stampCond homeReq samplePage) samplePage) rfl rfl

theorem pageBySlug_none {db : DB} {sid slug : String}
    (h : ∀ p ∈ db.pages, p.siteId = sid → ¬ p.slug = slug) :
    db.pageBySlug sid slug = none := by
  unfold DB.pageBySlug
  rw [List.find?_eq_none]
  intro p hp
  simp only [Bool.and_eq_true, beq_iff_eq, not_and]
  exact h p hp

/-- C2: tenant isolation.  For every identity, a by-id read, update, or
delete of a Page, Media, or Site whose owning tenant is not the caller's
(including nonexistent ids) answers exactly the 404 not-found response of
that route — the same response a nonexistent id gets and never a 403 —
and leaves the state unchanged; and a successful by-id read only ever
returns a resource of the caller's own tenant. -/
theorem C2_tenant_isolation (u : Identity) (db : DB) :
    (∀ pid : String,
      ((∀ p ∈ db.pages, p.id = pid → ¬ db.pageTenant p = some u.tenantId) →
        getPageById u db pid = .err pageNotFound ∧
        (∀ i now, updateInputValid i = true →
          updatePage u db pid i now = (.err pageNotFound, db)) ∧
        (∀ st now, publishPage u db pid st now = (.err pageNotFound, db)) ∧
        deletePage u db pid = (.err pageNotFound, db)) ∧
      (∀ p, getPageById u db pid = .ok p →
        p ∈ db.pages ∧ p.id = pid ∧ db.pageTenant p = some u.tenantId)) ∧
    (∀ mid : String,
      ((∀ m ∈ db.media, m.id = mid → ¬ db.mediaTenant m = some u.tenantId) →
        getMediaById u db mid = .err mediaNotFound ∧
        (∀ i, updateMedia u db mid i = (.err mediaNotFound, db)) ∧
        deleteMedia u db mid = (.err mediaNotFound, db)) ∧
      (∀ m, getMediaById u db mid = .ok m →
        m ∈ db.media ∧ m.id = mid ∧ db.mediaTenant m = some u.tenantId)) ∧
    (∀ sid : String,
      ((∀ s ∈ db.sites, s.id = sid → ¬ s.tenantId = u.tenantId) →
        getSiteById u db sid = .err siteNotFound ∧
        (∀ i, updateSiteValid i = true → updateSite u db sid i = (.err siteNotFound, db)) ∧
        (∀ pub, publishSite u db sid pub = (.err siteNotFound, db)) ∧
        deleteSite u db sid = (.err siteNotFound, db)) ∧
      (∀ s, getSiteById u db sid = .ok s →
        s ∈ db.sites ∧ s.id = sid ∧ s.tenantId = u.tenantId)) ∧
    (pageNotFound.status = 404 ∧ mediaNotFound.status = 404 ∧ siteNotFound.status = 404 ∧
      ¬ pageNotFound.status = 403 ∧ ¬ mediaNotFound.status = 403 ∧
      ¬ siteNotFound.status = 403) := by
  refine ⟨?_, ?_, ?_, by decide⟩
  · intro pid
    constructor
    · intro h
      have hn := pageInTenant_none h
      refine ⟨?_, ?_, ?_, ?_⟩
      · unfold getPageById; rw [hn]
      · intro i now hvalid
        unfold updatePage
        rw [if_neg (not_not_intro hvalid), hn]
      · intro st now
        unfold publishPage; rw [hn]
      · unfold deletePage; rw [hn]
    · intro p hp
      unfold getPageById at hp
      cases hfind : db.pageInTenant u.tenantId pid with
      | none => rw [hfind] at hp; simp at hp
      | some pg =>
        rw [hfind] at hp
        simp only [Outcome.ok.injEq] at hp
        subst hp
        exact pageInTenant_spec hfind
  · intro mid
    constructor
    · intro h
      have hn := mediaInTenant_none h
      refine ⟨?_, ?_, ?_⟩
      · unfold getMediaById; rw [hn]
      · intro i; unfold updateMedia; rw [hn]
      · unfold deleteMedia; rw [hn]
    · intro m hm
      unfold getMediaById at hm
      cases hfind : db.mediaInTenant u.tenantId mid with
      | none => rw [hfind] at hm; simp at hm
      | some m0 =>
        rw [hfind] at hm
        simp only [Outcome.ok.injEq] at hm
        subst hm
        exact mediaInTenant_spec hfind
  · intro sid
    constructor
    · intro h
      have hn := siteInTenant_none h
      refine ⟨?_, ?_, ?_, ?_⟩
      · unfold getSiteById; rw [hn]
      · intro i hvalid
        unfold updateSite
        rw [if_neg (not_not_intro hvalid), hn]
      · intro pub; unfold publishSite; rw [hn]
      · unfold deleteSite; rw [hn]
    · intro s hs
      unfold getSiteById at hs
      cases hfind : db.siteInTenant u.tenantId sid with
      | none => rw [hfind] at hs; simp at hs
      | some s0 =>
        rw [hfind] at hs
        simp only [Outcome.ok.injEq] at hs
        subst hs
        exact siteInTenant_spec hfind

/-- C2 witness: the theorem applied to a tenant-t2 identity addressing
tenant-t1 resources by id. -/
theorem C2_tenant_isolation_witness :
    getPageById otherTenantUser sampleDBm "p1" = .err pageNotFound ∧
    deletePage otherTenantUser sampleDBm "p1" = (.err pageNotFound, sampleDBm) ∧
    getMediaById otherTenantUser sampleDBm "m1" = .err mediaNotFound ∧
    deleteMedia otherTenantUser sampleDBm "m1" = (.err mediaNotFound, sampleDBm) ∧
    getSiteById otherTenantUser sampleDBm "s1" = .err siteNotFound := by
  have hp : ∀ p ∈ sampleDBm.pages, p.id = "p1" →
      ¬ sampleDBm.pageTenant p = some otherTenantUser.tenantId := by decide
  have hm : ∀ m ∈ sampleDBm.media, m.id = "m1" →
      ¬ sampleDBm.mediaTenant m = some otherTenantUser.tenantId := by decide
  have hs : ∀ s ∈ sampleDBm.sites, s.id = "s1" → ¬ s.tenantId = otherTenantUser.tenantId := by
    decide
  have h := C2_tenant_isolation otherTenantUser sampleDBm
  exact ⟨((h.1 "p1").1 hp).1, ((h.1 "p1").1 hp).2.2.2, ((h.2.1 "m1").1 hm).1,
    ((h.2.1 "m1").1 hm).2.2, ((h.2.2.1 "s1").1 hs).1⟩

/-- C3 counterexample: the sample page was first published at time 100 and
is currently ARCHIVED; a PUT with status PUBLISHED at time 200 re-stamps
publishedAt to 200 — the handler condition looks only at the previous
status, not at whether publishedAt was already set — so the original
timestamp is not retained through an archive/republish cycle. -/
theorem C3_publishedAt_counterexample :
    (updatePage adminUser sampleDB "p1"
        { title := none, slug := none, status := some .PUBLISHED, isHomePage := none } 200).1
      = .ok { samplePage with status := .PUBLISHED, publishedAt := some 200 } ∧
    samplePage.publishedAt = some 100 ∧
    ¬ (some 200 : Option Nat) = some 100 := by
  exact ⟨rfl, rfl, by decide⟩

/-- C3 amended: on every transition into PUBLISHED from a non-PUBLISHED
stored status, PUT /pages/:id and PATCH /pages/:id/publish stamp
publishedAt with the current time — re-stamping it even when it was
already set, so an archive/republish cycle replaces the original
timestamp; every other transition leaves publishedAt unchanged, and it is
never cleared to null once set. -/
theorem C3_publishedAt_amended (u : Identity) (db : DB) (pid : String) (i : UpdatePageInput)
    (now : Nat) (pg p : Page) (st : PageStatus) :
    ((updatePage u db pid i now).1 = .ok p → db.pageInTenant u.tenantId pid = some pg →
      ((i.status = some .PUBLISHED ∧ ¬ pg.status = .PUBLISHED → p.publishedAt = some now) ∧
       (¬ (i.status = some .PUBLISHED ∧ ¬ pg.status = .PUBLISHED) →
         p.publishedAt = pg.publishedAt) ∧
       (∀ t, pg.publishedAt = some t → ¬ p.publishedAt = none))) ∧
    ((publishPage u db pid st now).1 = .ok p → db.pageInTenant u.tenantId pid = some pg →
      ((st = .PUBLISHED ∧ ¬ pg.status = .PUBLISHED → p.publishedAt = some now) ∧
       (¬ (st = .PUBLISHED ∧ ¬ pg.status = .PUBLISHED) → p.publishedAt = pg.publishedAt) ∧
       (∀ t, pg.publishedAt = some t → ¬ p.publishedAt = none))) := by
  constructor
  · intro hok heq
    rcases updatePage_cases u db pid i now with ⟨_, e, hfst⟩ | ⟨pg2, heq2, hfst, _⟩
    · rw [hfst] at hok; simp at hok
    · rw [heq] at heq2
      injection heq2 with hpg
      subst hpg
      rw [hfst] at hok
      injection hok with hp
      subst hp
      have hstamp : stampCond i pg = true ↔
          (i.status = some .PUBLISHED ∧ ¬ pg.status = .PUBLISHED) := by
        unfold stampCond
        simp [Bool.and_eq_true]
      have hpa : (applyPageUpdate i now (stampCond i pg) pg).publishedAt
          = (if stampCond i pg = true then some now else pg.publishedAt) := rfl
      refine ⟨?_, ?_, ?_⟩
      · intro hc
        rw [hpa, if_pos (hstamp.mpr hc)]
      · intro hc
        rw [hpa, if_neg (fun hh => hc (hstamp.mp hh))]
      · intro t ht
        rw [hpa]
        split
        · simp
        · rw [ht]; simp
  · intro hok heq
    rcases publishPage_cases u db pid st now with ⟨_, e, hfst⟩ | ⟨pg2, heq2, hfst, _⟩
    · rw [hfst] at hok; simp at hok
    · rw [heq] at heq2
      injection heq2 with hpg
      subst hpg
      rw [hfst] at hok
      injection hok with hp
      subst hp
      have hstamp : publishStamp st pg = true ↔
          (st = .PUBLISHED ∧ ¬ pg.status = .PUBLISHED) := by
        unfold publishStamp
        simp [Bool.and_eq_true]
      have hpa : (applyPageUpdate (publishInput st) now (publishStamp st pg) pg).publishedAt
          = (if publishStamp st pg = true then some now else pg.publishedAt) := rfl
      refine ⟨?_, ?_, ?_⟩
      · intro hc
        rw [hpa, if_pos (hstamp.mpr hc)]
      · intro hc
        rw [hpa, if_neg (fun hh => hc (hstamp.mp hh))]
      · intro t ht
        rw [hpa]
        split
        · simp
        · rw [ht]; simp

/-- C3 witness: the amended theorem applied to the concrete archived page:
a republish at time 200 yields publishedAt = 200 (re-stamped, not null). -/
theorem C3_publishedAt_amended_witness :
    ({ samplePage with status := .PUBLISHED, publishedAt := some 200 } : Page).publishedAt
      = some 200 ∧
    ¬ ({ samplePage with status := .PUBLISHED, publishedAt := some 200 } : Page).publishedAt
      = none := by
  have h := (C3_publishedAt_amended adminUser sampleDB "p1"
    { title := none, slug := none, status := some .PUBLISHED, isHomePage := none } 200
    samplePage { samplePage with status := .PUBLISHED, publishedAt := some 200 }
    .PUBLISHED).1 rfl rfl
  exact ⟨h.1 ⟨rfl, by decide⟩, h.2.2 100 rfl⟩

/-- C4: ownership rule for page mutation.  When the tenant-scoped lookup
finds the page, an EDITOR who is not its author gets the "not owner" 403
of the respective route and the state is unchanged; an EDITOR who is the
author passes the ownership gate (publish and delete succeed outright);
an ADMIN or SUPER_ADMIN of the tenant succeeds on any page of the tenant
regardless of authorship (update shown for slug-preserving requests,
which cannot hit the slug-uniqueness rejection). -/
theorem C4_editor_ownership (u : Identity) (db : DB) (pid : String) (pg : Page)
    (hfind : db.pageInTenant u.tenantId pid = some pg) :
    (u.role = "EDITOR" → ¬ pg.authorId = u.id →
      (∀ i now, updateInputValid i = true →
        updatePage u db pid i now = (.err notOwnerEdit, db)) ∧
      (∀ st now, publishPage u db pid st now = (.err notOwnerModify, db)) ∧
      deletePage u db pid = (.err notOwnerDelete, db)) ∧
    (u.role = "EDITOR" → pg.authorId = u.id →
      (∀ st now, (publishPage u db pid st now).1
        = .ok (applyPageUpdate (publishInput st) now (publishStamp st pg) pg)) ∧
      (deletePage u db pid).1 = .ok ()) ∧
    ((u.role = "ADMIN" ∨ u.role = "SUPER_ADMIN") →
      (∀ st now, (publishPage u db pid st now).1
        = .ok (applyPageUpdate (publishInput st) now (publishStamp st pg) pg)) ∧
      (deletePage u db pid).1 = .ok () ∧
      (∀ i now, updateInputValid i = true → i.slug = none →
        (updatePage u db pid i now).1 = .ok (applyPageUpdate i now (stampCond i pg) pg))) := by
  refine ⟨?_, ?_, ?_⟩
  · intro hrole hauth
    have hcond : (u.role == "EDITOR" && pg.authorId != u.id) = true := by
      simp [hrole, hauth]
    refine ⟨?_, ?_, ?_⟩
    · intro i now hvalid
      unfold updatePage
      rw [if_neg (not_not_intro hvalid), hfind]
      show (if (u.role == "EDITOR" && pg.authorId != u.id) = true then
        ((.err notOwnerEdit, db) : Outcome Page × DB)
        else if slugTaken db pg i = true then (.err slugExistsErr, db)
        else (.ok (applyPageUpdate i now (stampCond i pg) pg), updateAppliedDB db pg pid i now))
        = (.err notOwnerEdit, db)
      rw [if_pos hcond]
    · intro st now
      unfold publishPage
      rw [hfind]
      show (if (u.role == "EDITOR" && pg.authorId != u.id) = true then
        ((.err notOwnerModify, db) : Outcome Page × DB)
        else (.ok (applyPageUpdate (publishInput st) now (publishStamp st pg) pg),
          { db with pages := updatePageList db.pages pid (publishInput st) now (publishStamp st pg) }))
        = (.err notOwnerModify, db)
      rw [if_pos hcond]
    · unfold deletePage
      rw [hfind]
      show (if (u.role == "EDITOR" && pg.authorId != u.id) = true then
        ((.err notOwnerDelete, db) : Outcome Unit × DB)
        else (.ok (), { db with pages := db.pages.filter (fun p => p.id != pid) }))
        = (.err notOwnerDelete, db)
      rw [if_pos hcond]
  · intro hrole hauth
    have hcond : ¬ (u.role == "EDITOR" && pg.authorId != u.id) = true := by
      simp [hrole, hauth]
    constructor
    · intro st now
      unfold publishPage
      rw [hfind]
      show (if (u.role == "EDITOR" && pg.authorId != u.id) = true then
        ((.err notOwnerModify, db) : Outcome Page × DB)
        else (.ok (applyPageUpdate (publishInput st) now (publishStamp st pg) pg),
          { db with pages := updatePageList db.pages pid (publishInput st) now (publishStamp st pg) })).1
        = .ok (applyPageUpdate (publishInput st) now (publishStamp st pg) pg)
      rw [if_neg hcond]
    · unfold deletePage
      rw [hfind]
      show (if (u.role == "EDITOR" && pg.authorId != u.id) = true then
        ((.err notOwnerDelete, db) : Outcome Unit × DB)
        else (.ok (), { db with pages := db.pages.filter (fun p => p.id != pid) })).1 = .ok ()
      rw [if_neg hcond]
  · intro hrole
    have hcond : ¬ (u.role == "EDITOR" && pg.authorId != u.id) = true := by
      rcases hrole with h | h <;> simp [h]
    refine ⟨?_, ?_, ?_⟩
    · intro st now
      unfold publishPage
      rw [hfind]
      show (if (u.role == "EDITOR" && pg.authorId != u.id) = true then
        ((.err notOwnerModify, db) : Outcome Page × DB)
        else (.ok (applyPageUpdate (publishInput st) now (publishStamp st pg) pg),
          { db with pages := updatePageList db.pages pid (publishInput st) now (publishStamp st pg) })).1
        = .ok (applyPageUpdate (publishInput st) now (publishStamp st pg) pg)
      rw [if_neg hcond]
    · unfold deletePage
      rw [hfind]
      show (if (u.role == "EDITOR" && pg.authorId != u.id) = true then
        ((.err notOwnerDelete, db) : Outcome Unit × DB)
        else (.ok (), { db with pages := db.pages.filter (fun p => p.id != pid) })).1 = .ok ()
      rw [if_neg hcond]
    · intro i now hvalid hslug
      have hst : slugTaken db pg i = false := by
        unfold slugTaken
        rw [hslug]
      unfold updatePage
      rw [if_neg (not_not_intro hvalid), hfind]
      show (if (u.role == "EDITOR" && pg.authorId != u.id) = true then
        ((.err notOwnerEdit, db) : Outcome Page × DB)
        else if slugTaken db pg i = true then (.err slugExistsErr, db)
        else (.ok (applyPageUpdate i now (stampCond i pg) pg), updateAppliedDB db pg pid i now)).1
        = .ok (applyPageUpdate i now (stampCond i pg) pg)
      rw [if_neg hcond, hst]
      rfl

/-- C4 witness: the editor u2 cannot delete the page authored by u1 and
the state is unchanged; the tenant admin u1 can. -/
theorem C4_editor_ownership_witness :
    deletePage editorUser sampleDB "p1" = (.err notOwnerDelete, sampleDB) ∧
    (deletePage adminUser sampleDB "p1").1 = .ok () := by
  have h1 := C4_editor_ownership editorUser sampleDB "p1" samplePage rfl
  have h2 := C4_editor_ownership adminUser sampleDB "p1" samplePage rfl
  exact ⟨(h1.1 rfl (by decide)).2.2, (h2.2.2 (Or.inl rfl)).2.1⟩

/-- C5: the home-page check-then-write window.  PUT /pages/:id performs two
separate awaited store operations — the `updateMany` clear
(`clearHomePagesExcept`) and the `update` write (`updatePageList`) — with
no surrounding transaction (`db.$transaction` occurs only in
/auth/register).  Sequentially each of the two racing requests passes its
checks and succeeds (first two conjuncts); interleaving their store
operations as A-clear, B-clear, A-write, B-write makes both requests
succeed and leaves the site with TWO home pages, violating the
one-winner/consistent-final-state requirement. -/
theorem C5_home_race_window :
    (updatePage adminUser raceDB "p1" homeReq 0).1
      = .ok { racePage1 with isHomePage := true } ∧
    (updatePage adminUser raceDB "p2" homeReq 0).1
      = .ok { racePage2 with isHomePage := true } ∧
    raceStep4 = [{ racePage1 with isHomePage := true }, { racePage2 with isHomePage := true }] ∧
    homeCount raceStep4 "s1" = 2 ∧
    ¬ homeCount raceStep4 "s1" ≤ 1 := by
  exact ⟨rfl, rfl, by decide, by decide, by decide⟩

/-- C6: every page create or update request that fails — validation error,
site/page not found in the caller tenant, not-owner rejection, or slug
conflict (all the error responses these handlers produce) — leaves the
persisted state exactly as it was; in particular the isHomePage flags of
the site's other pages are untouched. -/
theorem C6_failed_requests_no_mutation (u : Identity) (db : DB) (i : CreatePageInput)
    (j : UpdatePageInput) (pid newId : String) (now : Nat) (e e2 : ErrResponse) :
    ((createPage u db i newId now).1 = .err e → (createPage u db i newId now).2 = db) ∧
    ((updatePage u db pid j now).1 = .err e2 → (updatePage u db pid j now).2 = db) := by
  constructor
  · intro h
    rcases createPage_cases u db i newId now with ⟨h2, _⟩ | ⟨hok, _⟩
    · exact h2
    · rw [hok] at h; simp at h
  · intro h
    rcases updatePage_cases u db pid j now with ⟨h2, _⟩ | ⟨pg, _, hok, _⟩
    · exact h2
    · rw [hok] at h; simp at h

/-- C6 witness: a slug-conflicting create and a cross-tenant update both
fail and leave the sample database unchanged. -/
theorem C6_failed_requests_no_mutation_witness :
    (createPage adminUser sampleDB
      { siteId := "s1", title := "X", slug := "home", status := none, isHomePage := some true }
      "p9" 0).2 = sampleDB ∧
    (updatePage otherTenantUser sampleDB "p1" homeReq 0).2 = sampleDB := by
  refine ⟨?_, ?_⟩
  · exact (C6_failed_requests_no_mutation adminUser sampleDB
      { siteId := "s1", title := "X", slug := "home", status := none, isHomePage := some true }
      homeReq "p1" "p9" 0 slugExistsErr pageNotFound).1 rfl
  · exact (C6_failed_requests_no_mutation otherTenantUser sampleDB
      { siteId := "s1", title := "X", slug := "home", status := none, isHomePage := some true }
      homeReq "p1" "p9" 0 slugExistsErr pageNotFound).2 rfl

/-- C7: slug uniqueness is scoped to the Site.  Creating a page whose slug
is already used in the same site fails with the slug-conflict response and
no mutation; when no page of the target site holds the slug (pages of
other sites may hold the same slug value), the create succeeds.  On
update, the uniqueness check runs only when a slug is supplied and differs
from the current one (then a taken slug is rejected); supplying the
unchanged slug skips the check and the update succeeds. -/
theorem C7_slug_scoped_uniqueness (u : Identity) (db : DB) :
    (∀ (i : CreatePageInput) (newId : String) (now : Nat) (s : Site) (q : Page),
      createInputValid i = true →
      db.siteInTenant u.tenantId i.siteId = some s →
      db.pageBySlug i.siteId i.slug = some q →
      createPage u db i newId now = (.err slugExistsErr, db)) ∧
    (∀ (i : CreatePageInput) (newId : String) (now : Nat) (s : Site),
      createInputValid i = true →
      db.siteInTenant u.tenantId i.siteId = some s →
      (∀ p ∈ db.pages, p.siteId = i.siteId → ¬ p.slug = i.slug) →
      (createPage u db i newId now).1 = .ok (newPageRow u i newId now)) ∧
    (∀ (pid : String) (i : UpdatePageInput) (now : Nat) (pg : Page) (sl : String) (q : Page),
      updateInputValid i = true →
      db.pageInTenant u.tenantId pid = some pg →
      ¬ (u.role == "EDITOR" && pg.authorId != u.id) = true →
      i.slug = some sl → ¬ sl = pg.slug → db.pageBySlug pg.siteId sl = some q →
      updatePage u db pid i now = (.err slugExistsErr, db)) ∧
    (∀ (pid : String) (i : UpdatePageInput) (now : Nat) (pg : Page),
      updateInputValid i = true →
      db.pageInTenant u.tenantId pid = some pg →
      ¬ (u.role == "EDITOR" && pg.authorId != u.id) = true →
      i.slug = some pg.slug →
      (updatePage u db pid i now).1 = .ok (applyPageUpdate i now (stampCond i pg) pg)) := by
  refine ⟨?_, ?_, ?_, ?_⟩
  · intro i newId now s q hvalid hsite hslug
    unfold createPage
    rw [if_neg (not_not_intro hvalid), hsite]
    show (match db.pageBySlug i.siteId i.slug with
      | some _ => ((.err slugExistsErr, db) : Outcome Page × DB)
      | none => (.ok (newPageRow u i newId now), createAppliedDB u db i newId now))
      = (.err slugExistsErr, db)
    rw [hslug]
  · intro i newId now s hvalid hsite hfree
    unfold createPage
    rw [if_neg (not_not_intro hvalid), hsite]
    show (match db.pageBySlug i.siteId i.slug with
      | some _ => ((.err slugExistsErr, db) : Outcome Page × DB)
      | none => (.ok (newPageRow u i newId now), createAppliedDB u db i newId now)).1
      = .ok (newPageRow u i newId now)
    rw [pageBySlug_none hfree]
  · intro pid i now pg sl q hvalid hfind hown hslug hne htaken
    have hst : slugTaken db pg i = true := by
      unfold slugTaken
      rw [hslug]
      show (sl != pg.slug && (db.pageBySlug pg.siteId sl).isSome) = true
      rw [htaken]
      simp [hne]
    unfold updatePage
    rw [if_neg (not_not_intro hvalid), hfind]
    show (if (u.role == "EDITOR" && pg.authorId != u.id) = true then
      ((.err notOwnerEdit, db) : Outcome Page × DB)
      else if slugTaken db pg i = true then (.err slugExistsErr, db)
      else (.ok (applyPageUpdate i now (stampCond i pg) pg), updateAppliedDB db pg pid i now))
      = (.err slugExistsErr, db)
    rw [if_neg hown, if_pos hst]
  · intro pid i now pg hvalid hfind hown hslug
    have hst : slugTaken db pg i = false := by
      unfold slugTaken
      rw [hslug]
      show (pg.slug != pg.slug && (db.pageBySlug pg.siteId pg.slug).isSome) = false
      simp
    unfold updatePage
    rw [if_neg (not_not_intro hvalid), hfind]
    show (if (u.role == "EDITOR" && pg.authorId != u.id) = true then
      ((.err notOwnerEdit, db) : Outcome Page × DB)
      else if slugTaken db pg i = true then (.err slugExistsErr, db)
      else (.ok (applyPageUpdate i now (stampCond i pg) pg), updateAppliedDB db pg pid i now)).1
      = .ok (applyPageUpdate i now (stampCond i pg) pg)
    rw [if_neg hown, hst]
    rfl

/-- A second site of the same tenant, used to show slug scoping. -/
def sampleSite2 : Site :=
  { id := "s2", tenantId := "t1", name := "Docs", domain := none,
    theme := "default", isPublished := false }

/-- Sample database with two sites of tenant t1. -/
def sampleDB2 : DB :=
  { sites := [sampleSite, sampleSite2], pages := [samplePage], media := [] }

/-- C7 witness: creating slug "home" again in site s1 conflicts; creating
slug "home" in the other site s2 succeeds; updating the page keeping its
own slug "home" succeeds (check skipped). -/
theorem C7_slug_scoped_uniqueness_witness :
    createPage adminUser sampleDB2
      { siteId := "s1", title := "X", slug := "home", status := none, isHomePage := none }
      "p8" 0 = (.err slugExistsErr, sampleDB2) ∧
    (createPage adminUser sampleDB2
      { siteId := "s2", title := "Y", slug := "home", status := none, isHomePage := none }
      "p9" 0).1 = .ok (newPageRow adminUser
        { siteId := "s2", title := "Y", slug := "home", status := none, isHomePage := none }
        "p9" 0) ∧
    (updatePage adminUser sampleDB2 "p1"
      { title := none, slug := some "home", status := none, isHomePage := none } 0).1
      = .ok (applyPageUpdate
        { title := none, slug := some "home", status := none, isHomePage := none } 0
        (stampCond { title := none, slug := some "home", status := none, isHomePage := none }
          samplePage) samplePage) := by
  have h := C7_slug_scoped_uniqueness adminUser sampleDB2
  refine ⟨?_, ?_, ?_⟩
  · exact h.1 { siteId := "s1", title := "X", slug := "home", status := none, isHomePage := none }
      "p8" 0 sampleSite samplePage (by decide) rfl rfl
  · exact h.2.1 { siteId := "s2", title := "Y", slug := "home", status := none, isHomePage := none }
      "p9" 0 sampleSite2 (by decide) rfl (by decide)
  · exact h.2.2.2 "p1" { title := none, slug := some "home", status := none, isHomePage := none }
      0 samplePage (by decide) rfl (by decide) rfl

/-- C8 counterexample: a refresh token — valid signature, decoded payload
`{ userId, type: "refresh" }` — fails the access-token schema validation;
the thrown ZodError is not a JsonWebTokenError, so the middleware's catch
falls through to the 500 "Authentication failed" response, not a 401. -/
theorem C8_refresh_token_counterexample :
    authenticate (some "Bearer rt")
      (fun t => if t == "rt" then .decoded (refreshTokenPayload "u1") else .jwtError)
      [] = .err authInternalErr ∧
    authInternalErr.status = 500 ∧ ¬ authInternalErr.status = 401 := by
  exact ⟨by decide, rfl, by decide⟩

/-- C8 amended: every token whose decoded payload fails the access-token
schema validation — in particular any refresh token, which carries only
userId and the "refresh" marker — is rejected and never authenticated, but
with the 500 "Authentication failed" internal-error response (the ZodError
is not a JsonWebTokenError and lands in the generic catch), not the 401
AuthenticationError kind. -/
theorem C8_schema_failure_rejected_with_500 (h : Option String) (tok : String)
    (vt : String → VerifyOutcome) (users : List UserRec) (p : DecodedPayload) :
    (bearerToken h = some tok → vt tok = .decoded p → jwtPayloadParse p = none →
      authenticate h vt users = .err authInternalErr) ∧
    (∀ uid, jwtPayloadParse (refreshTokenPayload uid) = none) := by
  constructor
  · intro hb hv hp
    unfold authenticate
    rw [hb]
    show (match vt tok with
      | .jwtError => AuthResult.err invalidTokenJwtErr
      | .decoded payload =>
        match jwtPayloadParse payload with
        | none => .err authInternalErr
        | some pl =>
          match users.find? (fun usr : UserRec => usr.id == pl.userId && usr.isActive) with
          | none => .err userGoneErr
          | some usr => .ok ⟨usr.id, usr.email, usr.role, usr.tenantId⟩)
      = .err authInternalErr
    rw [hv]
    show (match jwtPayloadParse p with
      | none => AuthResult.err authInternalErr
      | some pl =>
        match users.find? (fun usr : UserRec => usr.id == pl.userId && usr.isActive) with
        | none => .err userGoneErr
        | some usr => .ok ⟨usr.id, usr.email, usr.role, usr.tenantId⟩)
      = .err authInternalErr
    rw [hp]
  · intro uid
    rfl

/-- C8 witness: the amended theorem applied to a concrete refresh token. -/
theorem C8_schema_failure_rejected_with_500_witness :
    authenticate (some "Bearer xyz") (fun _ => .decoded (refreshTokenPayload "u7")) []
      = .err authInternalErr :=
  (C8_schema_failure_rejected_with_500 (some "Bearer xyz") "xyz"
    (fun _ => .decoded (refreshTokenPayload "u7")) [] (refreshTokenPayload "u7")).1
    (by decide) rfl rfl

/-- C9: for failed logins, the unknown-or-inactive-email branch and the
wrong-password branch return the identical 401 response — same status,
same error, same message — so the two causes are indistinguishable to the
caller. -/
theorem C9_login_indistinguishable (users : List UserRec)
    (cmp : String → String → Bool) (e1 p1 e2 p2 : String) (uRec : UserRec) :
    loginInputValid e1 p1 = true → loginInputValid e2 p2 = true →
    findActiveUser users e1 = none →
    findActiveUser users e2 = some uRec → cmp p2 uRec.password = false →
    login users cmp e1 p1 = .err invalidCredentialsErr ∧
    login users cmp e2 p2 = .err invalidCredentialsErr ∧
    login users cmp e1 p1 = login users cmp e2 p2 := by
  intro hv1 hv2 hf1 hf2 hcmp
  have h1 : login users cmp e1 p1 = .err invalidCredentialsErr := by
    unfold login
    rw [if_neg (not_not_intro hv1), hf1]
  have h2 : login users cmp e2 p2 = .err invalidCredentialsErr := by
    unfold login
    rw [if_neg (not_not_intro hv2), hf2]
    show (if cmp p2 uRec.password = true then LoginResult.ok uRec
      else .err invalidCredentialsErr) = .err invalidCredentialsErr
    rw [hcmp]
    rfl
  exact ⟨h1, h2, by rw [h1, h2]⟩

/-- A concrete active user row for the login witness. -/
def sampleUserRec : UserRec :=
  { id := "u1", email := "a@acme.com", password := "hashA", firstName := "Ada",
    lastName := "Girsch", role := "ADMIN", tenantId := "t1", isActive := true }

/-- C9 witness: with a one-user store, the unknown-email failure and the
wrong-password failure produce the very same response. -/
theorem C9_login_indistinguishable_witness :
    login [sampleUserRec] (fun pw h => pw == h) "z@acme.com" "pw"
      = .err invalidCredentialsErr ∧
    login [sampleUserRec] (fun pw h => pw == h) "a@acme.com" "wrong"
      = .err invalidCredentialsErr ∧
    login [sampleUserRec] (fun pw h => pw == h) "z@acme.com" "pw"
      = login [sampleUserRec] (fun pw h => pw == h) "a@acme.com" "wrong" :=
  C9_login_indistinguishable [sampleUserRec] (fun pw h => pw == h) "z@acme.com" "pw"
    "a@acme.com" "wrong" sampleUserRec (by decide) (by decide) (by decide) (by decide)
    (by decide)

/-- C10: media mutation applies no ownership/author condition — the Media
row does not even carry an author column — so any identity whose role is
in the route's allowed list (EDITOR, ADMIN, or SUPER_ADMIN) and whose
tenant owns the media's site can update and delete any media of the
tenant, regardless of who created it. -/
theorem C10_media_no_ownership (u : Identity) (db : DB) (mid : String) (m : Media)
    (i : UpdateMediaInput) :
    (u.role = "EDITOR" ∨ u.role = "ADMIN" ∨ u.role = "SUPER_ADMIN") →
    db.mediaInTenant u.tenantId mid = some m →
    (i.filename = none →
      (putMediaRoute u db mid i).1 = .ok (applyMediaUpdate i m)) ∧
    deleteMediaRoute u db mid
      = (.ok (), { db with media := db.media.filter (fun x => x.id != mid) }) := by
  intro hrole hfind
  have hrr : requireRole editorRoles u = none := by
    unfold requireRole
    rcases hrole with h | h | h <;> rw [h] <;> rfl
  constructor
  · intro hfn
    unfold putMediaRoute
    rw [hrr]
    show (updateMedia u db mid i).1 = .ok (applyMediaUpdate i m)
    unfold updateMedia
    rw [hfind]
    show (if (match i.filename with
        | some f => f != m.filename && (db.mediaByFilename m.siteId f).isSome
        | none => false) = true
      then ((.err filenameExistsErr, db) : Outcome Media × DB)
      else (.ok (applyMediaUpdate i m),
        { db with media := db.media.map (fun x => if x.id == mid then applyMediaUpdate i x else x) })).1
      = .ok (applyMediaUpdate i m)
    rw [hfn]
    rfl
  · unfold deleteMediaRoute
    rw [hrr]
    show deleteMedia u db mid
      = (.ok (), { db with media := db.media.filter (fun x => x.id != mid) })
    unfold deleteMedia
    rw [hfind]

/-- C10 witness: the editor u2 (not the uploader of anything) updates and
deletes the sample media of tenant t1. -/
theorem C10_media_no_ownership_witness :
    (putMediaRoute editorUser sampleDBm "m1" { filename := none, alt := some "x" }).1
      = .ok (applyMediaUpdate { filename := none, alt := some "x" } sampleMedia) ∧
    deleteMediaRoute editorUser sampleDBm "m1"
      = (.ok (), { sampleDBm with media := sampleDBm.media.filter (fun x => x.id != "m1") }) := by
  have h := C10_media_no_ownership editorUser sampleDBm "m1" sampleMedia
    { filename := none, alt := some "x" } (Or.inl rfl) rfl
  exact ⟨h.1 rfl, h.2⟩
